import Mathlib

/-!
Verification of the scale-out orchestration logic of `batch_containers.py`
(Azure Batch simulation scaling).  The Python source is shallowly embedded:
configuration values become explicit parameters, the remote Batch backend
becomes explicit state passing, and Python exceptions become `Except`.
-/

/-- Python exception values that the embedded code can raise. -/
inductive PyError where
  | typeError : PyError
  | runtimeTimeout : Nat → PyError
  | backendError : String → PyError
deriving DecidableEq, Repr

/-- Azure Batch task states (azure.batch.models.TaskState); the barrier in
the source only distinguishes `completed` from everything else. -/
inductive TaskState where
  | active : TaskState
  | preparing : TaskState
  | running : TaskState
  | completed : TaskState
deriving DecidableEq, Repr

/-- Keyword arguments accepted by the Python 3 stdlib call chain
logging.Logger.info -> Logger._log; any other keyword raises TypeError. -/
def logAcceptedKwargs : List String := ["exc_info", "extra", "stack_info", "stacklevel"]

/-- Model of logging.Logger.info: when the logger is enabled for INFO the
keyword arguments are forwarded to Logger._log, which rejects unknown
keywords with a TypeError. -/
def loggerInfo (enabledForInfo : Bool) (kwargs : List String) : Except PyError Unit :=
  if enabledForInfo then
    if kwargs.all (fun k => logAcceptedKwargs.contains k) then Except.ok ()
    else Except.error PyError.typeError
  else Except.ok ()

/-- Effective level of the module logger: the module sets the root logger to
logging.NOTSET (value 0) at import (line 33), so the effective level is 0. -/
def rootLoggerLevel : Nat := 0

/-- Numeric value of logging.INFO. -/
def INFO_LEVEL : Nat := 20

/-- The module logger is enabled for INFO records. -/
def loggerEnabledForInfo : Bool := decide (rootLoggerLevel ≤ INFO_LEVEL)

/-- Polling loop of wait_for_tasks_to_complete (lines 390-408).  Time is
discretised to one tick per iteration (the loop sleeps 1 second); `states t`
is the list of task states the backend reports at tick `t`, and the deadline
`timeout_expiration` is reached at tick `deadline`.  The loop returns True as
soon as a poll strictly before the deadline sees every task completed, and
otherwise raises a RuntimeError carrying the configured timeout. -/
def waitLoop (states : Nat → List TaskState) (deadline : Nat) (t : Nat) :
    Except PyError Bool :=
  if t < deadline then
    if (states t).all (fun s => s = TaskState.completed) then Except.ok true
    else waitLoop states deadline (t + 1)
  else Except.error (PyError.runtimeTimeout deadline)
termination_by deadline - t

/-- Embedding of wait_for_tasks_to_complete (lines 379-408): it first calls
logger.info with the extra keyword argument end (line 387) and only then
enters the polling loop. -/
def wait_for_tasks_to_complete (enabledForInfo : Bool)
    (states : Nat → List TaskState) (timeout : Nat) : Except PyError Bool := do
  let _ ← loggerInfo enabledForInfo ["end"]
  waitLoop states timeout 0

/-- Tier selection of run_tasks (lines 562-576): the if/elif ladder mapping
tasks_per_node to a VM SKU string; the Boolean records whether the density
message (line 572) is emitted. -/
def select_vm_sku (tasks_per_node : Nat) : String × Bool :=
  if tasks_per_node ≤ 8 then ("Standard_E2s_v3", false)
  else if tasks_per_node ≤ 16 then ("Standard_E8s_v3", false)
  else if tasks_per_node ≤ 32 then ("Standard_E16s_v3", false)
  else if tasks_per_node ≤ 75 then ("Standard_E32s_v3", false)
  else ("Standard_E64s_v3", true)

/-- Sizing computed by run_tasks (lines 549-550): total_nodes is
low_pri_nodes + dedicated_nodes and tasks_per_node is
max(int(int(num_tasks)/total_nodes), 1).  For the nonnegative integers
involved, CPython int() truncation of the exact quotient is floor division,
embedded as Nat division. -/
def run_tasks_sizing (num_tasks low_pri_nodes dedicated_nodes : Nat) :
    Nat × String × Bool :=
  let total_nodes := low_pri_nodes + dedicated_nodes
  let tasks_per_node := max (num_tasks / total_nodes) 1
  (tasks_per_node, select_vm_sku tasks_per_node)

/-- Size order of the five SKU strings the ladder can produce
(Standard_E2s_v3 smallest, Standard_E64s_v3 largest). -/
def vmRank (sku : String) : Nat :=
  if sku = "Standard_E2s_v3" then 0
  else if sku = "Standard_E8s_v3" then 1
  else if sku = "Standard_E16s_v3" then 2
  else if sku = "Standard_E32s_v3" then 3
  else if sku = "Standard_E64s_v3" then 4
  else 5

/-- State of the remote pool backend: the ids of existing pools together
with a count of create calls issued (batch_client.pool.add). -/
structure PoolBackend where
  pools : List String
  createCalls : Nat
deriving DecidableEq, Repr

/-- Model of batch_client.pool.exists. -/
def poolBackendHas (st : PoolBackend) (pool_id : String) : Bool :=
  st.pools.contains pool_id

/-- Model of batch_client.pool.add: registers the pool and counts the call. -/
def poolBackendAdd (st : PoolBackend) (pool_id : String) : PoolBackend :=
  { pools := pool_id :: st.pools, createCalls := st.createCalls + 1 }

/-- Embedding of create_pool (lines 184-247) restricted to its
existence-check-then-create control flow: the backend create call is issued
when not skip_if_exists or the pool does not yet exist (line 240), otherwise
the existing pool is reused without mutation; either way the method ends by
recording pool_id as the handle for later jobs (line 247). -/
def create_pool (st : PoolBackend) (pool_id : String) (skip_if_exists : Bool) :
    PoolBackend × String :=
  if !skip_if_exists || !poolBackendHas st pool_id then
    (poolBackendAdd st pool_id, pool_id)
  else
    (st, pool_id)

/-- Task id produced by batch_main at loop index i (line 445):
"job_number" followed by the decimal index, an underscore, and the
configured campaign (JOB_NAME). -/
def task_name (i : Nat) (campaign : String) : String :=
  "job_number" ++ Nat.repr i ++ "_" ++ campaign

/-- Embedding of the fan-out loop of batch_main (lines 434-449): one
add_task call per i in range(NUM_TASKS), in that order, with the task ids
produced by task_name. -/
def batch_main_task_ids (num_tasks : Nat) (campaign : String) : List String :=
  (List.range num_tasks).map (fun i => task_name i campaign)

/-- Python None, the value a Python function returns when it falls off the
end of its body; both branches of try_delete end this way. -/
inductive PyNone where
  | none : PyNone
deriving DecidableEq, Repr

/-- State of the remote job backend as seen by delete_all_tasks: which job
deletions were attempted (in order) and which succeeded.  throwsOn says
which job ids make batch_client.job.delete raise. -/
structure JobDeleteState where
  attempted : List String
  deleted : List String
deriving DecidableEq, Repr

/-- Embedding of the inner function try_delete (lines 282-286): attempts the
backend deletion, catches any exception (printing "already gone"), and falls
off the end, returning Python None in every case. -/
def try_delete (throwsOn : String → Bool) (st : JobDeleteState) (jid : String) :
    JobDeleteState × PyNone :=
  if throwsOn jid then
    ({ st with attempted := st.attempted ++ [jid] }, PyNone.none)
  else
    ({ attempted := st.attempted ++ [jid], deleted := st.deleted ++ [jid] },
      PyNone.none)

/-- Evaluation of the list comprehension [try_delete(j) for j in ids] from
an arbitrary starting state, threading the backend state left to right. -/
def delete_fold (throwsOn : String → Bool)
    (acc : JobDeleteState × List PyNone) (ids : List String) :
    JobDeleteState × List PyNone :=
  ids.foldl
    (fun acc jid =>
      let r := try_delete throwsOn acc.1 jid
      (r.1, acc.2 ++ [r.2]))
    acc

/-- Embedding of delete_all_tasks (lines 277-289): lists every job id on the
backend and returns the list comprehension [try_delete(j) for j in ids]. -/
def delete_all_tasks (throwsOn : String → Bool) (jobIds : List String) :
    JobDeleteState × List PyNone :=
  delete_fold throwsOn (⟨[], []⟩, []) jobIds

/-- The two configuration fields that the mount-path decisions read. -/
structure MountConfig where
  acr_platform : String
  pool_publisher : String
deriving DecidableEq, Repr

/-- Relative mount path chosen by create_pool (lines 206-209), keyed on
config ACR PLATFORM being exactly "windows". -/
def pool_mount_path (c : MountConfig) : String :=
  if c.acr_platform = "windows" then "S" else "azfileshare"

/-- Bind-mount argument built by add_task when the fileshare is in use
(lines 344-349), keyed on config POOL PUBLISHER being exactly
"MicrosoftWindowsServer". -/
def task_mount (c : MountConfig) (start_dir : String) : String :=
  if c.pool_publisher = "MicrosoftWindowsServer" then
    "S:\\:C:\\" ++ start_dir ++ "\\logs"
  else
    "/azfileshare/:/" ++ start_dir ++ "/logs"

/-- The two textual definitions of delete_pool in the class body: the
parameterized one at line 249 and the zero-parameter one at line 291. -/
inductive DeletePoolDef where
  | withArg : DeletePoolDef
  | zeroArg : DeletePoolDef
deriving DecidableEq, Repr

/-- Method definitions of class AzureBatchContainers in source order (the
def statements of the class body, lines 49-460).  Python executes the class
body top to bottom, each def rebinding its name in the class namespace. -/
def classBodyDefs : List (String × DeletePoolDef) :=
  [("delete_pool", DeletePoolDef.withArg),
   ("delete_pool", DeletePoolDef.zeroArg)]

/-- Name resolution in the class namespace: the last binding of a name in
the class body wins. -/
def resolveMethod (name : String) : Option DeletePoolDef :=
  (classBodyDefs.filter (fun p => p.1 = name)).getLast?.map (fun p => p.2)

/-- Embedding of the surviving delete_pool (lines 291-295): it takes no pool
name, reads the pool id from config POOL POOL_ID, and issues the backend
delete, whose outcome is returned unswallowed (there is no try/except). -/
def delete_pool (config_pool_id : String)
    (backendDelete : String → Except PyError Unit) : Except PyError Unit :=
  backendDelete config_pool_id

/-- Decimal digit list of n, most significant first, as produced by the core
printer Nat.toDigitsCore at base 10 with sufficient fuel. -/
def digitsOf (n : Nat) : List Char :=
  if n / 10 = 0 then [Nat.digitChar (n % 10)]
  else digitsOf (n / 10) ++ [Nat.digitChar (n % 10)]
termination_by n
decreasing_by simp_wf; omega

/-- Numeric value of a decimal digit character. -/
def charDigit (c : Char) : Nat := c.toNat - 48

/-- Value of a decimal digit string, most significant first. -/
def reprVal : List Char → Nat
  | [] => 0
  | c :: cs => charDigit c * 10 ^ cs.length + reprVal cs

/-! Auxiliary facts about the decimal printer, used for uniqueness of the
fan-out task ids. -/

theorem toDigitsCore_eq_digitsOf (fuel : Nat) :
    ∀ (n : Nat) (ds : List Char), n < fuel →
      Nat.toDigitsCore 10 fuel n ds = digitsOf n ++ ds := by
  induction fuel with
  | zero => intro n ds h; omega
  | succ f ih =>
    intro n ds h
    rw [Nat.toDigitsCore]
    by_cases h10 : n / 10 = 0
    · rw [if_pos h10]
      unfold digitsOf
      rw [if_pos h10]
      rfl
    · rw [if_neg h10, ih (n / 10) _ (by omega)]
      conv_rhs => unfold digitsOf
      rw [if_neg h10, List.append_assoc]
      rfl

theorem repr_eq_digitsOf (n : Nat) : Nat.repr n = (digitsOf n).asString := by
  rw [Nat.repr, Nat.toDigits,
    toDigitsCore_eq_digitsOf (n + 1) n [] (Nat.lt_succ_self n), List.append_nil]

theorem charDigit_digitChar (d : Nat) (h : d < 10) :
    charDigit (Nat.digitChar d) = d := by
  interval_cases d <;> rfl

theorem reprVal_append (cs : List Char) (c : Char) :
    reprVal (cs ++ [c]) = 10 * reprVal cs + charDigit c := by
  induction cs with
  | nil => simp [reprVal]
  | cons x xs ih =>
    simp only [List.cons_append, reprVal, List.length_append,
      List.length_singleton, List.append_eq]
    rw [ih]
    ring

theorem reprVal_digitsOf (n : Nat) : reprVal (digitsOf n) = n := by
  induction n using Nat.strong_induction_on with
  | _ n ih =>
    unfold digitsOf
    by_cases h : n / 10 = 0
    · rw [if_pos h]
      simp [reprVal, charDigit_digitChar (n % 10) (by omega)]
      omega
    · rw [if_neg h, reprVal_append, ih (n / 10) (by omega),
        charDigit_digitChar (n % 10) (by omega)]
      omega

theorem natRepr_inj (m n : Nat) (h : Nat.repr m = Nat.repr n) : m = n := by
  rw [repr_eq_digitsOf, repr_eq_digitsOf, List.asString_inj] at h
  have hv := congrArg reprVal h
  rwa [reprVal_digitsOf, reprVal_digitsOf] at hv

theorem task_name_inj (campaign : String) (i j : Nat)
    (h : task_name i campaign = task_name j campaign) : i = j := by
  unfold task_name at h
  have hd := congrArg String.data h
  simp only [String.data_append, List.append_assoc] at hd
  have h1 := List.append_cancel_left hd
  have h2 := List.append_cancel_right h1
  apply natRepr_inj
  apply String.toList_inj.mp
  exact h2

/-- C1: the completion barrier does not implement the specified
success/timeout contract.  On a run where every task is already Completed
and the deadline is generous (7200 ticks, the two-hour default), the call
raises TypeError — coming from the stray end keyword handed to logger.info —
instead of returning success; the polling loop that follows the logging call
would have returned success at the very first poll. -/
theorem c1_barrier_bug_evidence :
    wait_for_tasks_to_complete loggerEnabledForInfo
        (fun _ => [TaskState.completed, TaskState.completed]) 7200 =
      Except.error PyError.typeError ∧
    waitLoop (fun _ => [TaskState.completed, TaskState.completed]) 7200 0 =
      Except.ok true := by
  constructor
  · rfl
  · rw [waitLoop, if_pos (show (0:Nat) < 7200 by norm_num), if_pos (by decide)]

/-- C2: with the module's logging configuration (root logger enabled for
INFO), wait_for_tasks_to_complete raises TypeError for every timeout and
every history of backend task states, before any task is listed; it never
returns success and never raises the documented timeout error. -/
theorem c2_wait_raises_typeerror (states : Nat → List TaskState) (timeout : Nat) :
    wait_for_tasks_to_complete loggerEnabledForInfo states timeout =
      Except.error PyError.typeError ∧
    (∀ b : Bool,
      wait_for_tasks_to_complete loggerEnabledForInfo states timeout ≠
        Except.ok b) ∧
    wait_for_tasks_to_complete loggerEnabledForInfo states timeout ≠
      Except.error (PyError.runtimeTimeout timeout) := by
  have hmain : wait_for_tasks_to_complete loggerEnabledForInfo states timeout =
      Except.error PyError.typeError := rfl
  refine ⟨hmain, fun b => ?_, ?_⟩ <;> rw [hmain] <;> simp

/-- C3: for totalReplicas at least 1 and at least one node, the sizing in
run_tasks computes tasksPerNode as the floor of totalReplicas over the total
node count, clamped below by 1. -/
theorem c3_tasks_per_node_formula
    (totalReplicas lowPriorityNodes dedicatedNodes : Nat)
    (_h1 : 1 ≤ totalReplicas) (_h2 : 1 ≤ dedicatedNodes + lowPriorityNodes) :
    (run_tasks_sizing totalReplicas lowPriorityNodes dedicatedNodes).1 =
      max (totalReplicas / (dedicatedNodes + lowPriorityNodes)) 1 := by
  simp only [run_tasks_sizing]
  rw [Nat.add_comm lowPriorityNodes dedicatedNodes]

/-- Witness for C3 at the spec scenario 100 replicas on 1 dedicated plus 9
low-priority nodes. -/
theorem c3_witness :
    1 ≤ 100 ∧ 1 ≤ 1 + 9 ∧
    (run_tasks_sizing 100 9 1).1 = max (100 / (1 + 9)) 1 :=
  ⟨by decide, by decide, c3_tasks_per_node_formula 100 9 1 (by decide) (by decide)⟩

/-- C4: with no caller-supplied VM class, the selected class is the step
function of tasksPerNode with thresholds 8, 16, 32, 75; above 75 the largest
class is returned together with the density message and no exception; the
two spec scenarios give tasksPerNode 10 with the tier for at most 16, and
tasksPerNode 100 with the largest tier plus the warning. -/
theorem c4_vm_class_step_function :
    (∀ t, 1 ≤ t → t ≤ 8 → select_vm_sku t = ("Standard_E2s_v3", false)) ∧
    (∀ t, 8 < t → t ≤ 16 → select_vm_sku t = ("Standard_E8s_v3", false)) ∧
    (∀ t, 16 < t → t ≤ 32 → select_vm_sku t = ("Standard_E16s_v3", false)) ∧
    (∀ t, 32 < t → t ≤ 75 → select_vm_sku t = ("Standard_E32s_v3", false)) ∧
    (∀ t, 75 < t → select_vm_sku t = ("Standard_E64s_v3", true)) ∧
    run_tasks_sizing 100 9 1 = (10, "Standard_E8s_v3", false) ∧
    run_tasks_sizing 1000 9 1 = (100, "Standard_E64s_v3", true) := by
  refine ⟨fun t h1 h2 => ?_, fun t h1 h2 => ?_, fun t h1 h2 => ?_,
    fun t h1 h2 => ?_, fun t h1 => ?_, rfl, rfl⟩ <;>
    unfold select_vm_sku <;> split_ifs <;> first | rfl | omega

/-- Witness for C4: the threshold conjunct applied at tasksPerNode 10. -/
theorem c4_witness :
    (8 < 10 ∧ 10 ≤ 16) ∧ select_vm_sku 10 = ("Standard_E8s_v3", false) :=
  ⟨⟨by decide, by decide⟩,
    c4_vm_class_step_function.2.1 10 (by decide) (by decide)⟩

/-- C5: the VM class selection is monotonic non-decreasing in tasksPerNode
under the size order E2s < E8s < E16s < E32s < E64s. -/
theorem c5_vm_selection_monotone (t1 t2 : Nat) (_h1 : 1 ≤ t1) (h12 : t1 ≤ t2) :
    vmRank (select_vm_sku t1).1 ≤ vmRank (select_vm_sku t2).1 := by
  unfold select_vm_sku
  split_ifs <;> first | decide | omega

/-- Witness for C5 at tasksPerNode 10 and 100. -/
theorem c5_witness :
    1 ≤ 10 ∧ 10 ≤ 100 ∧
    vmRank (select_vm_sku 10).1 ≤ vmRank (select_vm_sku 100).1 :=
  ⟨by decide, by decide, c5_vm_selection_monotone 10 100 (by decide) (by decide)⟩

/-- C6: calling create_pool twice with the same pool id and
skip_if_exists true, starting from a backend that does not have the pool,
issues exactly one backend create call; the second call mutates nothing and
both calls record the same pool_id handle. -/
theorem c6_create_pool_idempotent (st : PoolBackend) (pid : String)
    (h : poolBackendHas st pid = false) :
    (create_pool st pid true).1.createCalls = st.createCalls + 1 ∧
    (create_pool (create_pool st pid true).1 pid true).1 =
      (create_pool st pid true).1 ∧
    (create_pool st pid true).2 = pid ∧
    (create_pool (create_pool st pid true).1 pid true).2 = pid := by
  have h2 : poolBackendHas
      { pools := pid :: st.pools, createCalls := st.createCalls + 1 } pid = true := by
    simp [poolBackendHas]
  simp [create_pool, h, h2, poolBackendAdd]

/-- Witness for C6 on an empty backend. -/
theorem c6_witness :
    poolBackendHas ⟨[], 0⟩ "bonsaipool10" = false ∧
    ((create_pool ⟨[], 0⟩ "bonsaipool10" true).1.createCalls =
        (PoolBackend.mk [] 0).createCalls + 1 ∧
      (create_pool (create_pool ⟨[], 0⟩ "bonsaipool10" true).1
          "bonsaipool10" true).1 =
        (create_pool ⟨[], 0⟩ "bonsaipool10" true).1 ∧
      (create_pool ⟨[], 0⟩ "bonsaipool10" true).2 = "bonsaipool10" ∧
      (create_pool (create_pool ⟨[], 0⟩ "bonsaipool10" true).1
          "bonsaipool10" true).2 = "bonsaipool10") :=
  ⟨by decide, c6_create_pool_idempotent ⟨[], 0⟩ "bonsaipool10" (by decide)⟩

/-- C7: the fan-out submits exactly N tasks, the i-th carrying the id built
from the loop index and the campaign, and the ids are pairwise distinct. -/
theorem c7_fanout_ids (N : Nat) (campaign : String) :
    (batch_main_task_ids N campaign).length = N ∧
    (∀ i, i < N →
      (batch_main_task_ids N campaign)[i]? = some (task_name i campaign)) ∧
    (batch_main_task_ids N campaign).Nodup := by
  refine ⟨by simp [batch_main_task_ids], fun i hi => ?_, ?_⟩
  · simp [batch_main_task_ids, List.getElem?_map, List.getElem?_range, hi]
  · exact (List.nodup_range N).map
      (fun a b hab => task_name_inj campaign a b hab)

/-- Witness for C7 with three replicas in campaign housejob3. -/
theorem c7_witness :
    (batch_main_task_ids 3 "housejob3").length = 3 ∧
    (1 < 3 ∧ (batch_main_task_ids 3 "housejob3")[1]? =
      some (task_name 1 "housejob3")) ∧
    (batch_main_task_ids 3 "housejob3").Nodup :=
  ⟨(c7_fanout_ids 3 "housejob3").1,
    ⟨by decide, (c7_fanout_ids 3 "housejob3").2.1 1 (by decide)⟩,
    (c7_fanout_ids 3 "housejob3").2.2⟩

/-- Outcome list and attempt record of the comprehension, for any starting
accumulator: one Python None per id, and every id attempted in order. -/
theorem delete_fold_spec (throwsOn : String → Bool) (ids : List String) :
    ∀ acc : JobDeleteState × List PyNone,
      (delete_fold throwsOn acc ids).2 =
        acc.2 ++ ids.map (fun _ => PyNone.none) ∧
      (delete_fold throwsOn acc ids).1.attempted = acc.1.attempted ++ ids := by
  induction ids with
  | nil => intro acc; simp [delete_fold]
  | cons x xs ih =>
    intro acc
    have hstep : delete_fold throwsOn acc (x :: xs) =
        delete_fold throwsOn
          ((try_delete throwsOn acc.1 x).1,
            acc.2 ++ [(try_delete throwsOn acc.1 x).2]) xs := rfl
    have hsnd : (try_delete throwsOn acc.1 x).2 = PyNone.none := by
      unfold try_delete; split <;> rfl
    have hatt : (try_delete throwsOn acc.1 x).1.attempted =
        acc.1.attempted ++ [x] := by
      unfold try_delete; split <;> rfl
    obtain ⟨hA, hB⟩ := ih
      ((try_delete throwsOn acc.1 x).1, acc.2 ++ [(try_delete throwsOn acc.1 x).2])
    rw [hstep]
    constructor
    · rw [hA]; simp [hsnd]
    · rw [hB]; simp [hatt]

/-- C8 counterexample: for job ids a, b, c where deleting b throws, the
returned outcome list is None, None, None; in particular the entry for b is
equal to the entry for a, so no outcome is marked failed as opposed to
succeeded — the claimed marking does not exist in the return value. -/
theorem c8_counterexample :
    (delete_all_tasks (fun j => j == "b") ["a", "b", "c"]).2 =
      [PyNone.none, PyNone.none, PyNone.none] ∧
    ((delete_all_tasks (fun j => j == "b") ["a", "b", "c"]).2)[1]? =
      ((delete_all_tasks (fun j => j == "b") ["a", "b", "c"]).2)[0]? :=
  ⟨rfl, rfl⟩

/-- C8 amended: delete_all_tasks attempts every listed job id in order even
when some deletions throw, never aborting early, and returns one outcome
per id — but every outcome is Python None, carrying no success or failure
marking (failures are only caught and logged). -/
theorem c8_delete_all_best_effort (throwsOn : String → Bool)
    (jobIds : List String) :
    (delete_all_tasks throwsOn jobIds).2.length = jobIds.length ∧
    (delete_all_tasks throwsOn jobIds).1.attempted = jobIds ∧
    ∀ o ∈ (delete_all_tasks throwsOn jobIds).2, o = PyNone.none := by
  obtain ⟨h1, h2⟩ := delete_fold_spec throwsOn jobIds (⟨[], []⟩, [])
  refine ⟨?_, ?_, fun o _ => by cases o; rfl⟩
  · rw [show delete_all_tasks throwsOn jobIds =
      delete_fold throwsOn (⟨[], []⟩, []) jobIds from rfl, h1]
    simp
  · rw [show delete_all_tasks throwsOn jobIds =
      delete_fold throwsOn (⟨[], []⟩, []) jobIds from rfl, h2]
    simp

/-- C9 counterexample: the pool side keys on config ACR PLATFORM while the
task side keys on config POOL PUBLISHER; with PLATFORM "windows" and
PUBLISHER "Canonical" the pool mounts the share at the Windows path S while
every task bind-mounts the Linux path, so the claimed agreement between the
two components fails for this configuration. -/
theorem c9_counterexample :
    pool_mount_path ⟨"windows", "Canonical"⟩ = "S" ∧
    task_mount ⟨"windows", "Canonical"⟩ "src" = "/azfileshare/:/src/logs" ∧
    task_mount ⟨"windows", "Canonical"⟩ "src" ≠ "S:\\:C:\\src\\logs" :=
  ⟨rfl, rfl, by decide⟩

/-- C9 amended: create_pool keys the OS decision on ACR PLATFORM being
"windows" and add_task keys it on POOL PUBLISHER being
"MicrosoftWindowsServer"; whenever these two flags agree, the two
components follow the common convention: Windows maps S to the logs folder
under the working directory, and otherwise azfileshare maps to the logs
folder under the working directory. -/
theorem c9_mount_convention (c : MountConfig) (d : String)
    (hagree : c.acr_platform = "windows" ↔
      c.pool_publisher = "MicrosoftWindowsServer") :
    (c.acr_platform = "windows" →
      pool_mount_path c = "S" ∧
      task_mount c d = "S:\\:C:\\" ++ d ++ "\\logs") ∧
    (c.acr_platform ≠ "windows" →
      pool_mount_path c = "azfileshare" ∧
      task_mount c d = "/azfileshare/:/" ++ d ++ "/logs") := by
  constructor
  · intro hw
    have hp := hagree.mp hw
    simp [pool_mount_path, task_mount, hw, hp]
  · intro hw
    have hp : ¬ c.pool_publisher = "MicrosoftWindowsServer" :=
      fun hpub => hw (hagree.mpr hpub)
    simp [pool_mount_path, task_mount, hw, hp]

/-- Witness for C9 on a consistent Windows configuration. -/
theorem c9_witness :
    pool_mount_path ⟨"windows", "MicrosoftWindowsServer"⟩ = "S" ∧
    task_mount ⟨"windows", "MicrosoftWindowsServer"⟩ "src" =
      "S:\\:C:\\" ++ "src" ++ "\\logs" :=
  (c9_mount_convention ⟨"windows", "MicrosoftWindowsServer"⟩ "src"
    (by constructor <;> intro <;> rfl)).1 rfl

/-- C10: in the class namespace the zero-parameter delete_pool defined
later shadows the earlier parameterized one, so the public method accepts
no pool name; it deletes exactly the pool read from config POOL POOL_ID and
returns the backend outcome unchanged, so any backend failure propagates to
the caller unswallowed. -/
theorem c10_delete_pool_shadowed :
    resolveMethod "delete_pool" = some DeletePoolDef.zeroArg ∧
    ∀ (config_pool_id : String)
      (backendDelete : String → Except PyError Unit),
      delete_pool config_pool_id backendDelete = backendDelete config_pool_id :=
  ⟨rfl, fun _ _ => rfl⟩

/-- Witness for C8 on the three-job scenario where deleting b throws. -/
theorem c8_witness :
    (delete_all_tasks (fun j => j == "b") ["a", "b", "c"]).2.length =
      (["a", "b", "c"] : List String).length ∧
    (delete_all_tasks (fun j => j == "b") ["a", "b", "c"]).1.attempted =
      ["a", "b", "c"] ∧
    (PyNone.none ∈ (delete_all_tasks (fun j => j == "b") ["a", "b", "c"]).2 ∧
      PyNone.none = PyNone.none) :=
  ⟨(c8_delete_all_best_effort (fun j => j == "b") ["a", "b", "c"]).1,
    (c8_delete_all_best_effort (fun j => j == "b") ["a", "b", "c"]).2.1,
    ⟨by decide,
      (c8_delete_all_best_effort (fun j => j == "b") ["a", "b", "c"]).2.2
        PyNone.none (by decide)⟩⟩
